import Mathlib

/-!
Shallow embedding of `addon_service/authorized_storage_account/models.py`
(gravyvalet).  Python `Optional` values become `Option`; Python truthiness of
optional strings ( `None` and `""` are falsy ) is `truthyStr`; methods that can
raise return `Except`; the database of persisted OAuth2 state tokens is an
explicit `OAuthDB` value threaded through `initiate_oauth2_flow`; the stream of
values produced by `secrets.token_urlsafe(16)` is an explicit list parameter.
-/

/-- Credential formats of external services
(`addon_service.credentials.CredentialsFormats`; only membership vs.
non-membership in `OAUTH2` matters to the embedded code). -/
inductive CredentialsFormats where
  | OAUTH2
  | HTTP_BASIC_AUTH
deriving DecidableEq, Repr

/-- Python truthiness of an `Optional[str]`: `None` and the empty string are
falsy, every other string is truthy. -/
def truthyStr : Option String → Bool
  | none => false
  | some s => s ≠ ""

/-- `addon_service.oauth.models.OAuth2TokenMetadata`: state token (set during
the handshake), refresh token (set after exchange), authorized scopes. -/
structure OAuth2TokenMetadata where
  state_token : Option String
  refresh_token : Option String
  authorized_scopes : List String
deriving DecidableEq, Repr

/-- `addon_service.credentials.ExternalCredentials`: a database row holding an
opaque credentials blob (modelled as a list of key/value pairs). -/
structure ExternalCredentials where
  id : Nat
  credentials_blob : List (String × String)
deriving DecidableEq, Repr

/-- `ExternalCredentials._update(blob)`: overwrite the blob in place (row
identity preserved). -/
def ExternalCredentials.updateBlob (c : ExternalCredentials)
    (blob : List (String × String)) : ExternalCredentials :=
  { c with credentials_blob := blob }

/-- The decoded view of a credentials row, returned by
`ExternalCredentials.as_data()`. -/
structure CredentialsData where
  blob : List (String × String)
deriving DecidableEq, Repr

/-- `ExternalCredentials.as_data()`: decode the stored blob. -/
def ExternalCredentials.as_data (c : ExternalCredentials) : CredentialsData :=
  ⟨c.credentials_blob⟩

/-- `addon_service.oauth.models.OAuth2ClientConfig`: the fields read by
`auth_url`. -/
structure OAuth2ClientConfig where
  auth_uri : String
  client_id : String
  auth_callback_url : String
deriving DecidableEq, Repr

/-- `addon_service.models.ExternalStorageService`: the fields read by
`AuthorizedStorageAccount`. -/
structure ExternalStorageService where
  credentials_format : CredentialsFormats
  supported_scopes : List String
  oauth2_client_config : OAuth2ClientConfig
deriving DecidableEq, Repr

/-- `AuthorizedStorageAccount` (models.py lines 28-65).  `credsRecord` embeds
the `_credentials` one-to-one field; `credentials_cache` embeds the
`functools.cached_property` slot for `credentials` (`some v` = the slot is
present in `vars(self)` with cached result `v`). -/
structure AuthorizedStorageAccount where
  external_storage_service : ExternalStorageService
  int_authorized_capabilities : List Nat
  credsRecord : Option ExternalCredentials
  oauth2_token_metadata : Option OAuth2TokenMetadata
  credentials_cache : Option (Option CredentialsData)
deriving DecidableEq, Repr

/-- `credentials_format` property: delegates through `external_service`. -/
def AuthorizedStorageAccount.credentials_format
    (a : AuthorizedStorageAccount) : CredentialsFormats :=
  a.external_storage_service.credentials_format

/-- The body of the `credentials` cached property: `as_data()` of the linked
record when present, else `None`. -/
def AuthorizedStorageAccount.computeCredentials
    (a : AuthorizedStorageAccount) : Option CredentialsData :=
  match a.credsRecord with
  | some c => some c.as_data
  | none => none

/-- Reading the `credentials` cached property: the cached value when the cache
slot is filled, otherwise the freshly computed value. -/
def AuthorizedStorageAccount.credentials
    (a : AuthorizedStorageAccount) : Option CredentialsData :=
  match a.credentials_cache with
  | some v => v
  | none => a.computeCredentials

/-- `AuthorizedStorageAccount.clean` (models.py lines 187-203).
`super().clean()` is Django's `Model.clean`, a no-op hook.  Returns early for
non-OAuth2 formats and for accounts without token metadata; otherwise rejects
when credential presence equals state-token truthiness, then rejects a
credential without a refresh token. -/
def AuthorizedStorageAccount.clean
    (a : AuthorizedStorageAccount) : Except String Unit :=
  if a.credentials_format ≠ CredentialsFormats.OAUTH2 then .ok ()
  else
    match a.oauth2_token_metadata with
    | none => .ok ()
    | some md =>
      if a.credentials.isSome == truthyStr md.state_token then
        .error "OAuth2 accounts must assign exactly one of state_token and access_token"
      else if a.credentials.isSome && !truthyStr md.refresh_token then
        .error "OAuth2 accounts with an access token must have a refresh token"
      else .ok ()

/-- Whether the account has a truthy persisted state token (derived view used
to state invariants). -/
def AuthorizedStorageAccount.state_token_present
    (a : AuthorizedStorageAccount) : Bool :=
  match a.oauth2_token_metadata with
  | none => false
  | some md => truthyStr md.state_token

/-- Whether the account has a truthy refresh token (derived view used to state
invariants). -/
def AuthorizedStorageAccount.refresh_token_present
    (a : AuthorizedStorageAccount) : Bool :=
  match a.oauth2_token_metadata with
  | none => false
  | some md => truthyStr md.refresh_token

/-- Python errors that embedded methods can raise besides Django validation
errors. -/
inductive PyError where
  | attributeError
  | valueError
deriving DecidableEq, Repr

/-- Modelled from the spec: `build_auth_url` (`addon_service/oauth/utils.py`,
not under src/) builds the OAuth2 authorization URL from the client config,
the one-time state token and the authorized scopes. -/
def build_auth_url (auth_uri client_id state_token : String)
    (authorized_scopes : List String) (redirect_uri : String) : String :=
  auth_uri ++ "?response_type=code&client_id=" ++ client_id
    ++ "&state=" ++ state_token
    ++ "&scope=" ++ String.intercalate " " authorized_scopes
    ++ "&redirect_uri=" ++ redirect_uri

/-- `AuthorizedStorageAccount.auth_url` (models.py lines 127-146).  Returns
`None` for non-OAuth2 formats; then reads
`self.oauth2_token_metadata.state_token`, which on a `None` metadata raises
`AttributeError`; returns `None` for a falsy state token, else the built
URL. -/
def AuthorizedStorageAccount.auth_url
    (a : AuthorizedStorageAccount) : Except PyError (Option String) :=
  if a.credentials_format ≠ CredentialsFormats.OAUTH2 then .ok none
  else
    match a.oauth2_token_metadata with
    | none => .error .attributeError
    | some md =>
      if !truthyStr md.state_token then .ok none
      else
        .ok (some (build_auth_url
          a.external_storage_service.oauth2_client_config.auth_uri
          a.external_storage_service.oauth2_client_config.client_id
          (md.state_token.getD "")
          md.authorized_scopes
          a.external_storage_service.oauth2_client_config.auth_callback_url))

/-- Modelled from the spec: `AddonCapabilities` (`addon_toolkit`, not under
src/), "a set of enumerated permission flags"; each member carries a distinct
integer value (Python `Enum` semantics). -/
inductive AddonCapabilities where
  | ACCESS
  | BROWSE
  | UPDATE
  | COMMIT
deriving DecidableEq, Repr

/-- The integer value of an `AddonCapabilities` member (`member.value`). -/
def AddonCapabilities.value : AddonCapabilities → Nat
  | .ACCESS => 1
  | .BROWSE => 2
  | .UPDATE => 4
  | .COMMIT => 8

/-- The enum call `AddonCapabilities(n)`: the member with value `n`, or a
`ValueError` (modelled as `none`) for an integer that is no member's value. -/
def AddonCapabilities.fromValue (n : Nat) : Option AddonCapabilities :=
  if n = 1 then some .ACCESS
  else if n = 2 then some .BROWSE
  else if n = 4 then some .UPDATE
  else if n = 8 then some .COMMIT
  else none

/-- The list comprehension of the `authorized_capabilities` getter: convert
each stored integer, raising (modelled as `none`) on the first invalid one. -/
def capsFromInts : List Nat → Option (List AddonCapabilities)
  | [] => some []
  | n :: ns =>
    match AddonCapabilities.fromValue n, capsFromInts ns with
    | some c, some cs => some (c :: cs)
    | _, _ => none

/-- `authorized_capabilities` getter (models.py lines 93-99): the enum
representation of `int_authorized_capabilities`. -/
def AuthorizedStorageAccount.authorized_capabilities
    (a : AuthorizedStorageAccount) : Option (List AddonCapabilities) :=
  capsFromInts a.int_authorized_capabilities

/-- `authorized_capabilities` setter (models.py lines 101-106): store each
capability's integer value.  `AddonCapabilities(_cap)` on a member is the
member itself (Python `Enum` semantics), so the setter stores
`_cap.value`. -/
def AuthorizedStorageAccount.set_authorized_capabilities
    (a : AuthorizedStorageAccount)
    (new_capabilities : List AddonCapabilities) : AuthorizedStorageAccount :=
  { a with
    int_authorized_capabilities := new_capabilities.map AddonCapabilities.value }

/-- Result of `set_credentials`: the mutated account and whether
`self.save()` ran. -/
structure SetCredentialsResult where
  account : AuthorizedStorageAccount
  saved : Bool
deriving DecidableEq, Repr

/-- `AuthorizedStorageAccount.set_credentials` (models.py lines 169-179).
Updates the linked `ExternalCredentials` row in place when one exists,
otherwise creates a fresh row (with fresh database id `fresh_id`) and links
it; deletes the `credentials` cached-property slot when present (modelled as
clearing the cache, which the slot-absent case leaves unchanged); saves. -/
def AuthorizedStorageAccount.set_credentials
    (a : AuthorizedStorageAccount) (credentials_blob : List (String × String))
    (fresh_id : Nat) : SetCredentialsResult :=
  let a1 :=
    match a.credsRecord with
    | some c => { a with credsRecord := some (c.updateBlob credentials_blob) }
    | none => { a with credsRecord := some ⟨fresh_id, credentials_blob⟩ }
  let a2 := { a1 with credentials_cache := none }
  { account := a2, saved := true }

/-- The set of persisted `OAuth2TokenMetadata` state tokens, on which the
database enforces a UNIQUE constraint. -/
structure OAuthDB where
  used_tokens : List String
deriving DecidableEq, Repr

/-- Python `authorized_scopes or self.external_service.supported_scopes`:
`None` and the empty list are falsy, so either falls back to the service's
supported scopes. -/
def resolveScopes (authorized_scopes : Option (List String))
    (supported : List String) : List String :=
  match authorized_scopes with
  | none => supported
  | some [] => supported
  | some scopes => scopes

/-- The `while True` loop of `initiate_oauth2_flow` (models.py lines
155-167) specialised to the errors the database can actually raise there:
`OAuth2TokenMetadata.objects.create` fails with a state-token uniqueness
`ValidationError` exactly when the generated token is already persisted, and
the loop `continue`s on that error.  `tokens` is the stream of values that
`token_urlsafe(16)` produces, one per attempt; `none` means the stream ran
out before an unused token appeared (the loop would still be running). -/
def oauth2_flow_loop (a : AuthorizedStorageAccount) (db : OAuthDB)
    (scopes : List String) :
    List String → Option (AuthorizedStorageAccount × OAuthDB)
  | [] => none
  | tok :: rest =>
    if db.used_tokens.contains tok then
      oauth2_flow_loop a db scopes rest
    else
      some ({ a with oauth2_token_metadata := some ⟨some tok, none, scopes⟩ },
            ⟨tok :: db.used_tokens⟩)

/-- The number of `OAuth2TokenMetadata.objects.create` attempts the loop
makes on a given token stream: one per collision plus the final successful
one. -/
def oauth2_flow_attempts (db : OAuthDB) : List String → Nat
  | [] => 0
  | tok :: rest =>
    if db.used_tokens.contains tok then 1 + oauth2_flow_attempts db rest
    else 1

/-- `AuthorizedStorageAccount.initiate_oauth2_flow` (models.py lines
148-167): raises `ValueError` for non-OAuth2 formats, else runs the
generation loop with the requested scopes (falling back to the service's
supported scopes when the argument is falsy); on success the account is
saved with the created metadata attached. -/
def AuthorizedStorageAccount.initiate_oauth2_flow
    (a : AuthorizedStorageAccount) (db : OAuthDB)
    (authorized_scopes : Option (List String)) (tokens : List String) :
    Except PyError (Option (AuthorizedStorageAccount × OAuthDB)) :=
  if a.credentials_format ≠ CredentialsFormats.OAUTH2 then .error .valueError
  else
    .ok (oauth2_flow_loop a db
      (resolveScopes authorized_scopes a.external_storage_service.supported_scopes)
      tokens)

/-- Outcome of one `OAuth2TokenMetadata.objects.create` call: a created row,
or a `ValidationError` carrying its `error_dict` keys. -/
inductive AttemptOutcome where
  | created (md : OAuth2TokenMetadata)
  | validationError (error_dict : List String)
deriving DecidableEq, Repr

/-- The exception control flow of the `while True` loop in
`initiate_oauth2_flow`, over an arbitrary stream of per-attempt outcomes.
On a `ValidationError` the handler runs `continue` when `"state_token"` is in
`e.error_dict`; when it is not, the handler body ends without raising, the
`try` statement (the whole loop body) completes, and `while True` iterates
again — so both branches retry and no `ValidationError` ever escapes.
`.ok none` means the outcome stream ran out with the loop still running. -/
def oauth2_flow_control :
    List AttemptOutcome → Except (List String) (Option OAuth2TokenMetadata)
  | [] => .ok none
  | .created md :: _ => .ok (some md)
  | .validationError ed :: rest =>
    if ed.contains "state_token" then
      oauth2_flow_control rest
    else
      oauth2_flow_control rest

/-! Concrete fixtures used to instantiate theorems. -/

def testClientConfig : OAuth2ClientConfig :=
  ⟨"https://auth.example/authorize", "client-1", "https://gravyvalet.example/callback"⟩

def testOAuthService : ExternalStorageService :=
  ⟨CredentialsFormats.OAUTH2, ["read", "write"], testClientConfig⟩

def testBasicService : ExternalStorageService :=
  ⟨CredentialsFormats.HTTP_BASIC_AUTH, [], testClientConfig⟩

def c1_pending_account : AuthorizedStorageAccount :=
  { external_storage_service := testOAuthService
    int_authorized_capabilities := []
    credsRecord := none
    oauth2_token_metadata := some ⟨some "state-tok", none, ["read"]⟩
    credentials_cache := none }

def c1_empty_account : AuthorizedStorageAccount :=
  { external_storage_service := testOAuthService
    int_authorized_capabilities := []
    credsRecord := none
    oauth2_token_metadata := none
    credentials_cache := none }

def c2_creds_only_account : AuthorizedStorageAccount :=
  { external_storage_service := testOAuthService
    int_authorized_capabilities := []
    credsRecord := some ⟨1, [("access_token", "secret")]⟩
    oauth2_token_metadata := none
    credentials_cache := none }

def c2_exchanged_account : AuthorizedStorageAccount :=
  { external_storage_service := testOAuthService
    int_authorized_capabilities := []
    credsRecord := some ⟨2, [("access_token", "secret")]⟩
    oauth2_token_metadata := some ⟨none, some "refresh-tok", ["read"]⟩
    credentials_cache := none }

def c8_account : AuthorizedStorageAccount :=
  { external_storage_service := testOAuthService
    int_authorized_capabilities := [1]
    credsRecord := some ⟨3, [("access_token", "secret")]⟩
    oauth2_token_metadata := none
    credentials_cache := none }

/-- C1 (amended to accounts whose `oauth2_token_metadata` is non-null): for an
OAuth2-format account with token metadata, a successful `clean` implies that
exactly one of {stored credentials, truthy state token} is present, and
`clean` raises a `ValidationError` whenever both are present or neither
is. -/
theorem clean_oauth2_exactly_one (a : AuthorizedStorageAccount)
    (md : OAuth2TokenMetadata)
    (hfmt : a.credentials_format = CredentialsFormats.OAUTH2)
    (hmd : a.oauth2_token_metadata = some md) :
    (a.clean = .ok () →
      (a.credentials.isSome == truthyStr md.state_token) = false) ∧
    ((a.credentials.isSome == truthyStr md.state_token) = true →
      a.clean =
        .error "OAuth2 accounts must assign exactly one of state_token and access_token") := by
  by_cases h : a.credentials.isSome = truthyStr md.state_token <;>
    simp [AuthorizedStorageAccount.clean, hfmt, hmd, h]

/-- Witness for `clean_oauth2_exactly_one` at a pending-OAuth account with a
state token and no credentials. -/
theorem clean_oauth2_exactly_one_witness :
    c1_pending_account.clean = .ok () ∧
    (c1_pending_account.credentials.isSome == truthyStr (some "state-tok")) = false :=
  ⟨rfl,
    (clean_oauth2_exactly_one c1_pending_account
      ⟨some "state-tok", none, ["read"]⟩ rfl rfl).1 rfl⟩

/-- C1 counterexample: an OAuth2-format account with `oauth2_token_metadata`
null and no credentials passes `clean` although neither of {stored
credentials, state token} is present, so the claim as stated is false. -/
theorem clean_oauth2_exactly_one_counterexample :
    c1_empty_account.credentials_format = CredentialsFormats.OAUTH2 ∧
    c1_empty_account.clean = .ok () ∧
    c1_empty_account.credentials.isSome = false ∧
    c1_empty_account.state_token_present = false :=
  ⟨rfl, rfl, rfl, rfl⟩

/-- C2 (amended to OAuth2-format accounts whose `oauth2_token_metadata` is
non-null): such an account holding stored credentials that passes `clean` has
a truthy refresh token. -/
theorem clean_credentials_require_refresh (a : AuthorizedStorageAccount)
    (md : OAuth2TokenMetadata)
    (hfmt : a.credentials_format = CredentialsFormats.OAUTH2)
    (hmd : a.oauth2_token_metadata = some md)
    (hcred : a.credentials.isSome = true)
    (hok : a.clean = .ok ()) :
    truthyStr md.refresh_token = true := by
  by_contra h
  rw [Bool.not_eq_true] at h
  by_cases hst : truthyStr md.state_token = true <;>
    simp [AuthorizedStorageAccount.clean, hfmt, hmd, hcred, h, hst] at hok

/-- Witness for `clean_credentials_require_refresh` at an account whose
OAuth2 exchange has completed. -/
theorem clean_credentials_require_refresh_witness :
    c2_exchanged_account.clean = .ok () ∧
    truthyStr (some "refresh-tok") = true :=
  ⟨rfl,
    clean_credentials_require_refresh c2_exchanged_account
      ⟨none, some "refresh-tok", ["read"]⟩ rfl rfl rfl rfl⟩

/-- C2 counterexample: an account holding stored credentials with
`oauth2_token_metadata` null passes `clean` although it has no refresh token,
so the claim over every account state is false. -/
theorem clean_credentials_require_refresh_counterexample :
    c2_creds_only_account.credentials.isSome = true ∧
    c2_creds_only_account.refresh_token_present = false ∧
    c2_creds_only_account.clean = .ok () :=
  ⟨rfl, rfl, rfl⟩

/-- C8: `clean` accepts every account whose format is not OAuth2 and every
account whose `oauth2_token_metadata` is null, whatever its credentials. -/
theorem clean_skips_non_oauth2_and_missing_metadata
    (a : AuthorizedStorageAccount)
    (h : a.credentials_format ≠ CredentialsFormats.OAUTH2 ∨
      a.oauth2_token_metadata = none) :
    a.clean = .ok () := by
  rcases h with h | h
  · simp [AuthorizedStorageAccount.clean, h]
  · unfold AuthorizedStorageAccount.clean
    rw [h]
    split <;> rfl

/-- Witness for `clean_skips_non_oauth2_and_missing_metadata` at an OAuth2
account holding credentials but no token-metadata record. -/
theorem clean_skips_witness :
    c8_account.oauth2_token_metadata = none ∧
    c8_account.credentials.isSome = true ∧
    c8_account.clean = .ok () :=
  ⟨rfl, rfl, clean_skips_non_oauth2_and_missing_metadata c8_account (Or.inr rfl)⟩

/-- C6: after `set_credentials(blob)`, reading the `credentials` property
yields the decoded view of the newly written blob — the cached-property slot
was cleared, so no previously cached decoded value can be returned, whatever
was cached before. -/
theorem set_credentials_fresh_read (a : AuthorizedStorageAccount)
    (blob : List (String × String)) (fresh_id : Nat) :
    ((a.set_credentials blob fresh_id).account).credentials = some ⟨blob⟩ := by
  cases h : a.credsRecord <;>
    simp [AuthorizedStorageAccount.set_credentials,
      AuthorizedStorageAccount.credentials,
      AuthorizedStorageAccount.computeCredentials,
      ExternalCredentials.updateBlob, ExternalCredentials.as_data, h]

/-- C7: `set_credentials` updates the linked credentials record in place
(same row id, new blob) when one exists, creates and links a fresh record
otherwise, and saves the account in both cases. -/
theorem set_credentials_replace_or_create (a : AuthorizedStorageAccount)
    (blob : List (String × String)) (fresh_id : Nat) :
    (a.set_credentials blob fresh_id).saved = true ∧
    (a.set_credentials blob fresh_id).account.credsRecord =
      some (match a.credsRecord with
        | some c => { c with credentials_blob := blob }
        | none => ⟨fresh_id, blob⟩) := by
  cases h : a.credsRecord <;>
    simp [AuthorizedStorageAccount.set_credentials,
      ExternalCredentials.updateBlob, h]

def c9_basic_account : AuthorizedStorageAccount :=
  { external_storage_service := testBasicService
    int_authorized_capabilities := []
    credsRecord := none
    oauth2_token_metadata := none
    credentials_cache := none }

def c9_nometa_account : AuthorizedStorageAccount :=
  { external_storage_service := testOAuthService
    int_authorized_capabilities := []
    credsRecord := none
    oauth2_token_metadata := none
    credentials_cache := none }

def c9_pending_account : AuthorizedStorageAccount :=
  { external_storage_service := testOAuthService
    int_authorized_capabilities := []
    credsRecord := none
    oauth2_token_metadata := some ⟨some "c9-tok", none, ["read"]⟩
    credentials_cache := none }

/-- C9: `auth_url` returns `None` for non-OAuth2 formats; for an OAuth2
account with null `oauth2_token_metadata` it raises `AttributeError`
(attribute access on `None`) instead of returning `None`; and it returns a
built URL only when a truthy state token is present. -/
theorem auth_url_cases (a : AuthorizedStorageAccount) :
    (a.credentials_format ≠ CredentialsFormats.OAUTH2 → a.auth_url = .ok none) ∧
    (a.credentials_format = CredentialsFormats.OAUTH2 →
      a.oauth2_token_metadata = none →
      a.auth_url = .error PyError.attributeError) ∧
    (∀ u : String, a.auth_url = .ok (some u) →
      a.state_token_present = true) := by
  refine ⟨fun h => by simp [AuthorizedStorageAccount.auth_url, h],
    fun hfmt hmd => by simp [AuthorizedStorageAccount.auth_url, hfmt, hmd],
    fun u hu => ?_⟩
  unfold AuthorizedStorageAccount.auth_url at hu
  by_cases hfmt : a.credentials_format ≠ CredentialsFormats.OAUTH2
  · simp [hfmt] at hu
  · cases hmd : a.oauth2_token_metadata with
    | none => simp [hfmt, hmd] at hu
    | some md =>
      by_cases hst : truthyStr md.state_token = true
      · simp [AuthorizedStorageAccount.state_token_present, hmd, hst]
      · simp [hfmt, hmd, hst] at hu

/-- Witness for `auth_url_cases`: a basic-auth account yields `None`, an
OAuth2 account without metadata raises, a pending OAuth2 account with a
state token yields a built URL. -/
theorem auth_url_cases_witness :
    c9_basic_account.auth_url = .ok none ∧
    c9_nometa_account.auth_url = .error PyError.attributeError ∧
    c9_pending_account.state_token_present = true :=
  ⟨(auth_url_cases c9_basic_account).1 (by decide),
   (auth_url_cases c9_nometa_account).2.1 rfl rfl,
   (auth_url_cases c9_pending_account).2.2
     (build_auth_url "https://auth.example/authorize" "client-1" "c9-tok"
       ["read"] "https://gravyvalet.example/callback") rfl⟩

/-- Each capability is recovered from its integer value (Python `Enum`
round trip). -/
theorem fromValue_value (c : AddonCapabilities) :
    AddonCapabilities.fromValue c.value = some c := by
  cases c <;> rfl

/-- C10: assigning any list of valid `AddonCapabilities` members through the
`authorized_capabilities` setter and reading the getter back returns the same
list: the set-then-get round trip through the integer encoding is the
identity. -/
theorem authorized_capabilities_roundtrip (a : AuthorizedStorageAccount)
    (caps : List AddonCapabilities) :
    (a.set_authorized_capabilities caps).authorized_capabilities = some caps := by
  show capsFromInts (caps.map AddonCapabilities.value) = some caps
  induction caps with
  | nil => rfl
  | cons c cs ih => simp [capsFromInts, fromValue_value c, ih]

/-- A successful run of the generation loop persists the first token of the
stream that is not already used: that token was unused, it is recorded as
used, and the saved account carries the created metadata with the resolved
scopes and no refresh token. -/
theorem oauth2_flow_loop_success (a : AuthorizedStorageAccount) (db : OAuthDB)
    (scopes : List String) (tokens : List String)
    (a1 : AuthorizedStorageAccount) (db1 : OAuthDB)
    (h : oauth2_flow_loop a db scopes tokens = some (a1, db1)) :
    ∃ tok, db.used_tokens.contains tok = false ∧
      a1 = { a with oauth2_token_metadata := some ⟨some tok, none, scopes⟩ } ∧
      db1 = ⟨tok :: db.used_tokens⟩ := by
  induction tokens with
  | nil => exact absurd h (by simp [oauth2_flow_loop])
  | cons t ts ih =>
    by_cases hc : db.used_tokens.contains t = true
    · rw [oauth2_flow_loop, if_pos hc] at h
      exact ih h
    · rw [oauth2_flow_loop, if_neg hc] at h
      simp only [Option.some.injEq, Prod.mk.injEq] at h
      exact ⟨t, by simpa using hc, h.1.symm, h.2.symm⟩

def c3_account : AuthorizedStorageAccount :=
  { external_storage_service := testOAuthService
    int_authorized_capabilities := []
    credsRecord := none
    oauth2_token_metadata := none
    credentials_cache := none }

def c3_account1 : AuthorizedStorageAccount :=
  { c3_account with
    oauth2_token_metadata := some ⟨some "t1", none, ["read", "write"]⟩ }

def c3_account2 : AuthorizedStorageAccount :=
  { c3_account with oauth2_token_metadata := some ⟨some "t2", none, ["read"]⟩ }

/-- C3: for an OAuth2-format account, every successful run of
`initiate_oauth2_flow` (retrying past any colliding tokens in the generation
stream) saves the account with metadata holding a previously unused state
token and the requested scopes (the service's supported scopes when none are
requested), and records the token as used; a second successful run therefore
never persists a state token equal to the first. -/
theorem initiate_oauth2_flow_unique_tokens
    (a : AuthorizedStorageAccount) (db : OAuthDB)
    (sc1 sc2 : Option (List String)) (toks1 toks2 : List String)
    (a1 a2 : AuthorizedStorageAccount) (db1 db2 : OAuthDB)
    (hfmt : a.credentials_format = CredentialsFormats.OAUTH2)
    (h1 : a.initiate_oauth2_flow db sc1 toks1 = .ok (some (a1, db1)))
    (h2 : a1.initiate_oauth2_flow db1 sc2 toks2 = .ok (some (a2, db2))) :
    ∃ t1 t2 : String,
      a1.oauth2_token_metadata =
        some ⟨some t1, none,
          resolveScopes sc1 a.external_storage_service.supported_scopes⟩ ∧
      db.used_tokens.contains t1 = false ∧
      db1.used_tokens = t1 :: db.used_tokens ∧
      a2.oauth2_token_metadata =
        some ⟨some t2, none,
          resolveScopes sc2 a1.external_storage_service.supported_scopes⟩ ∧
      db1.used_tokens.contains t2 = false ∧
      db2.used_tokens = t2 :: db1.used_tokens ∧
      (t1 == t2) = false := by
  rw [AuthorizedStorageAccount.initiate_oauth2_flow, if_neg (by simp [hfmt])] at h1
  simp only [Except.ok.injEq] at h1
  obtain ⟨t1, ht1, ha1, hdb1⟩ := oauth2_flow_loop_success _ _ _ _ _ _ h1
  have hsvc1 : a1.external_storage_service = a.external_storage_service := by
    rw [ha1]
  have hfmt1 : a1.credentials_format = CredentialsFormats.OAUTH2 := by
    rw [AuthorizedStorageAccount.credentials_format, hsvc1]
    exact hfmt
  rw [AuthorizedStorageAccount.initiate_oauth2_flow, if_neg (by simp [hfmt1])] at h2
  simp only [Except.ok.injEq] at h2
  obtain ⟨t2, ht2, ha2, hdb2⟩ := oauth2_flow_loop_success _ _ _ _ _ _ h2
  have hne : (t1 == t2) = false := by
    rw [hdb1] at ht2
    simp only [List.contains_cons, Bool.or_eq_false_iff] at ht2
    obtain ⟨hfst, _⟩ := ht2
    rw [beq_eq_false_iff_ne] at hfst ⊢
    exact fun hq => hfst hq.symm
  refine ⟨t1, t2, ?_, ht1, ?_, ?_, ht2, ?_, hne⟩
  · rw [ha1]
  · rw [hdb1]
  · rw [ha2, hsvc1]
  · rw [hdb2, hdb1]

/-- Witness for `initiate_oauth2_flow_unique_tokens`: a first run that
retries past the already-used token `old-tok` and persists `t1` with the
service's supported scopes, then a second run that retries past `t1` and
persists `t2` with the requested scope list. -/
theorem initiate_oauth2_flow_unique_tokens_witness :
    ∃ t1 t2 : String,
      c3_account1.oauth2_token_metadata =
        some ⟨some t1, none,
          resolveScopes none c3_account.external_storage_service.supported_scopes⟩ ∧
      (OAuthDB.mk ["old-tok"]).used_tokens.contains t1 = false ∧
      (OAuthDB.mk ["t1", "old-tok"]).used_tokens =
        t1 :: (OAuthDB.mk ["old-tok"]).used_tokens ∧
      c3_account2.oauth2_token_metadata =
        some ⟨some t2, none,
          resolveScopes (some ["read"])
            c3_account1.external_storage_service.supported_scopes⟩ ∧
      (OAuthDB.mk ["t1", "old-tok"]).used_tokens.contains t2 = false ∧
      (OAuthDB.mk ["t2", "t1", "old-tok"]).used_tokens =
        t2 :: (OAuthDB.mk ["t1", "old-tok"]).used_tokens ∧
      (t1 == t2) = false :=
  initiate_oauth2_flow_unique_tokens c3_account ⟨["old-tok"]⟩ none (some ["read"])
    ["old-tok", "t1"] ["t1", "t2"] c3_account1 c3_account2
    ⟨["t1", "old-tok"]⟩ ⟨["t2", "t1", "old-tok"]⟩ rfl rfl rfl

def c4_account : AuthorizedStorageAccount :=
  { external_storage_service := testOAuthService
    int_authorized_capabilities := []
    credsRecord := none
    oauth2_token_metadata := none
    credentials_cache := none }

def c4_db : OAuthDB := ⟨["t0", "t1"]⟩

/-- C4 counterexample: with the first two generated tokens both colliding,
the loop makes three `objects.create` attempts — two additional attempts
follow collisions, not at most one — and then succeeds with the third
token, so the claim that a collision is retried exactly once is false. -/
theorem oauth2_retry_once_counterexample :
    oauth2_flow_attempts c4_db ["t0", "t1", "t2"] = 3 ∧
    oauth2_flow_loop c4_account c4_db ["read"] ["t0", "t1", "t2"] =
      some ({ c4_account with
                oauth2_token_metadata := some ⟨some "t2", none, ["read"]⟩ },
            ⟨["t2", "t0", "t1"]⟩) := by
  constructor <;> decide

/-- C4 (amended): a state-token uniqueness collision is silently retried,
and the loop keeps retrying on every further collision until an unused token
is produced — the number of retries is unbounded, not capped at one: each
colliding head token costs one extra generation attempt and leaves the loop
to run on the rest of the stream. -/
theorem oauth2_collision_retries (a : AuthorizedStorageAccount) (db : OAuthDB)
    (scopes : List String) (tok : String) (rest : List String)
    (h : db.used_tokens.contains tok = true) :
    oauth2_flow_loop a db scopes (tok :: rest) =
      oauth2_flow_loop a db scopes rest ∧
    oauth2_flow_attempts db (tok :: rest) =
      1 + oauth2_flow_attempts db rest := by
  constructor
  · rw [oauth2_flow_loop, if_pos h]
  · rw [oauth2_flow_attempts, if_pos h]

/-- Witness for `oauth2_collision_retries` at a stream whose head token is
already used. -/
theorem oauth2_collision_retries_witness :
    (OAuthDB.mk ["w0"]).used_tokens.contains "w0" = true ∧
    oauth2_flow_loop c4_account ⟨["w0"]⟩ ["read"] ["w0", "w1"] =
      oauth2_flow_loop c4_account ⟨["w0"]⟩ ["read"] ["w1"] ∧
    oauth2_flow_attempts ⟨["w0"]⟩ ["w0", "w1"] =
      1 + oauth2_flow_attempts ⟨["w0"]⟩ ["w1"] :=
  ⟨by decide,
   (oauth2_collision_retries c4_account ⟨["w0"]⟩ ["read"] "w0" ["w1"]
      (by decide)).1,
   (oauth2_collision_retries c4_account ⟨["w0"]⟩ ["read"] "w0" ["w1"]
      (by decide)).2⟩

def c5_md : OAuth2TokenMetadata := ⟨some "c5-tok", none, ["read"]⟩

/-- C5: the code contradicts the claim.  A `ValidationError` whose error
dict does not involve `state_token` does not escape `initiate_oauth2_flow`:
the except handler ends without re-raising, the `while True` loop iterates
again, and on the concrete outcome stream the swallowed error is followed by
a retry that succeeds; moreover no outcome stream whatsoever makes the loop
propagate a `ValidationError`. -/
theorem oauth2_flow_swallows_validation_errors :
    oauth2_flow_control
      [AttemptOutcome.validationError ["authorized_scopes"],
       AttemptOutcome.created c5_md] = .ok (some c5_md) ∧
    ∀ outcomes : List AttemptOutcome,
      ∃ r, oauth2_flow_control outcomes = .ok r := by
  refine ⟨rfl, fun outcomes => ?_⟩
  induction outcomes with
  | nil => exact ⟨none, rfl⟩
  | cons o rest ih =>
    cases o with
    | created md => exact ⟨some md, rfl⟩
    | validationError ed =>
      obtain ⟨r, hr⟩ := ih
      refine ⟨r, ?_⟩
      rw [oauth2_flow_control]
      split <;> exact hr
